import Mathlib

/-!
Verification of the chunking / ingestion / citation pipeline of `src/ask.py`
(the `Ask` class and the `search_extract_summarize` command).

Python text values are modelled as `List Char` (Python strings are sequences
of code points and slicing is per code point), Python `int` as `Int`, Python
dicts as insertion-ordered association lists, and fallible code as
`Except String`.  External collaborators (the HTTP session, the vector DB,
the chat model) are passed in as functions.
-/

namespace AskPy

/-! ### Definitions -/

instance {ε α : Type} [DecidableEq ε] [DecidableEq α] : DecidableEq (Except ε α) := by
  intro a b
  cases a <;> cases b <;> first
    | (apply isFalse; intro h; exact Except.noConfusion h)
    | (rename_i x y; exact if h : x = y then isTrue (by rw [h]) else isFalse (by
        intro hc; cases hc; exact h rfl))

/-- Python `range(0, stop, step)` for a positive `step`: the multiples of
`step` below `stop`, i.e. `0, step, 2*step, ...` — `⌈stop/step⌉` of them. -/
def pythonRange (stop step : Nat) : List Nat :=
  (List.range ((stop + step - 1) / step)).map (fun k => k * step)

/-- Python `text[pos : pos + size]` for `0 ≤ pos` and `0 ≤ size` (the slice
stops never go negative at the call sites, so no wrap-around arises). -/
def pySlice (text : List Char) (pos len : Nat) : List Char :=
  (text.drop pos).take len

/-- The inner loop of `chunk_results` (src/ask.py lines 144-146) on one
document: `for pos in range(0, len(text), size - overlap):
chunks.append(text[pos : pos + size])`.  Python raises `ValueError` when the
range step `size - overlap` is zero, and `range` is empty when it is
negative. -/
def chunk_text (text : List Char) (size overlap : Int) :
    Except String (List (List Char)) :=
  let step := size - overlap
  if step = 0 then Except.error "ValueError: range() arg 3 must not be zero"
  else if step < 0 then Except.ok []
  else Except.ok ((pythonRange text.length step.toNat).map
    (fun pos => pySlice text pos size.toNat))

/-- The fragment list of one document when the stride is positive (the only
case the pipeline exercises: it always passes size 1000, overlap 100). -/
def chunk_list (text : List Char) (size overlap : Int) : List (List Char) :=
  (pythonRange text.length (size - overlap).toNat).map
    (fun pos => pySlice text pos size.toNat)

/-- `chunk_results` (src/ask.py lines 139-148): builds one dict entry per
scraped document, fragmenting its text; an exception raised while chunking
one entry propagates. -/
def chunk_results : List (String × List Char) → Int → Int →
    Except String (List (String × List (List Char)))
  | [], _, _ => Except.ok []
  | p :: rest, size, overlap =>
    match chunk_text p.2 size overlap with
    | Except.error e => Except.error e
    | Except.ok cs =>
      match chunk_results rest size overlap with
      | Except.error e => Except.error e
      | Except.ok tail => Except.ok ((p.1, cs) :: tail)

/-- The characters Python's `str.split()` treats as whitespace (ASCII ones;
the texts modelled here are code-point lists). -/
def isPySpace (c : Char) : Bool :=
  c = ' ' || c = '\t' || c = '\n' || c = '\r' || c = '\x0b' || c = '\x0c'

/-- Python `text.split()`: maximal runs of non-whitespace characters, with
no empty pieces.  The first argument accumulates the current word
(reversed). -/
def pySplit : List Char → List Char → List (List Char)
  | acc, [] => if acc = [] then [] else [acc.reverse]
  | acc, c :: cs =>
    if isPySpace c then
      if acc = [] then pySplit [] cs else acc.reverse :: pySplit [] cs
    else pySplit (c :: acc) cs

/-- Python `text.strip()`: drop leading and trailing whitespace. -/
def pyStrip (s : List Char) : List Char :=
  ((s.dropWhile isPySpace).reverse.dropWhile isPySpace).reverse

/-- The body-text normalization of `scrape_urls` (src/ask.py line 127):
`" ".join(body_text.split()).strip()`. -/
def normalize_body (s : List Char) : List Char :=
  pyStrip (List.intercalate [' '] (pySplit [] s))

/-- Outcome of fetching and parsing one URL, modelling the network and the
HTML parser: the request/parse raised an exception, the parsed page has no
body tag, or the body's text was extracted. -/
inductive FetchResult : Type where
  | exc : FetchResult
  | noBody : FetchResult
  | body : List Char → FetchResult
deriving DecidableEq

/-- Python dict assignment `d[k] = v` on an insertion-ordered association
list: update the entry in place if the key exists, else append. -/
def dictInsert (d : List (String × List Char)) (k : String) (v : List Char) :
    List (String × List Char) :=
  if d.any (fun p => p.1 == k) then
    d.map (fun p => if p.1 = k then (k, v) else p)
  else d ++ [(k, v)]

/-- One iteration of the `scrape_urls` loop (src/ask.py lines 119-136): an
exception is caught and the URL skipped; a page without a body tag is
logged and skipped; otherwise the normalized body text is stored. -/
def scrape_step (fetch : String → FetchResult)
    (acc : List (String × List Char)) (url : String) :
    List (String × List Char) :=
  match fetch url with
  | FetchResult.exc => acc
  | FetchResult.noBody => acc
  | FetchResult.body t => dictInsert acc url (normalize_body t)

/-- `scrape_urls` (src/ask.py lines 107-137): fold the per-URL loop over the
URL list, starting from the empty dict. -/
def scrape_urls (fetch : String → FetchResult) (urls : List String) :
    List (String × List Char) :=
  urls.foldl (scrape_step fetch) []

/-- A fetch function for concrete evaluations: one URL fails, the rest
succeed. -/
def fetch_demo : String → FetchResult := fun url =>
  if url = "bad" then FetchResult.exc else FetchResult.body "x y".data

/-- One `memory.save` call made by `save_to_db` (src/ask.py line 153): the
fragment text and the metadata dict `{"url": url, "chunk": i}`. -/
structure SavedEntry : Type where
  text : List Char
  url : String
  chunk : Nat
deriving DecidableEq

/-- `save_to_db` (src/ask.py lines 150-153), modelled as the ordered list of
`memory.save` calls it issues: one per fragment of each document, with the
enumeration index as the `chunk` metadata. -/
def save_to_db (chunking_results : List (String × List (List Char))) :
    List SavedEntry :=
  chunking_results.foldl
    (fun acc p => acc ++ p.2.enum.map (fun q => ⟨q.2, p.1, q.1⟩)) []

/-- One vector-search result as consumed by `run_inference` and the final
output loop: `result["chunk"]` and `result["metadata"]["url"]`. -/
structure MatchedChunk : Type where
  chunk : String
  url : String
deriving DecidableEq

/-- The `context` string assembled in `run_inference` (src/ask.py lines
189-191): `for i, chunk in enumerate(matched_chunks): context +=
"[{i+1}] {chunk}\n"` (braces denoting Python interpolation). -/
def run_inference_context (matched_chunks : List MatchedChunk) : String :=
  matched_chunks.enum.foldl
    (fun ctx p => ctx ++ "[" ++ toString (p.1 + 1) ++ "] " ++ p.2.chunk ++ "\n")
    ""

/-- The citation scheme as the spec words it (for comparison with
`run_inference_context`): entry i of the context is the line
"[i+1] chunk_i", numbering the entries 1..N in result order. -/
def context_lines (results : List MatchedChunk) : List String :=
  (List.range results.length).map
    (fun i => "[" ++ toString (i + 1) ++ "] " ++ (results.getD i ⟨"", ""⟩).chunk
      ++ "\n")

/-- The reference list printed by `search_extract_summarize` (src/ask.py
lines 277-279): line i is "[i+1] url_i" over the retrieval results in
order. -/
def reference_lines (results : List MatchedChunk) : List String :=
  results.enum.map (fun p => "[" ++ toString (p.1 + 1) ++ "] " ++ p.2.url)

/-- The system prompt of `run_inference` (src/ask.py lines 170-172). -/
def systemPromptText : String :=
  "You are expert summarizing the answers based on the provided contents."

/-- The human message of `run_inference`: the user prompt template
(src/ask.py lines 174-188) with the query and the assembled context
substituted by Python `str.format`. -/
def userPromptText (query context : String) : String :=
  "\nGiven the context as a sequence of references with a reference id in the \nformat of a leading [x], please answer the following question:\n\n"
  ++ query ++
  "\n\nIn the answer, use format [1], [2], ..., [n] in line where the reference is used. \nFor example, \"According to the research from Google[3], ...\".\n\nPlease create the answer strictly related to the context. If the context has no\ninformation about the query, please write \"No related information found in the context.\"\n\nHere is the context:\n"
  ++ context ++ "\n"

/-- `run_inference` (src/ask.py lines 167-206) with the chat model passed in
as a function (model name, system prompt, human message ↦ optional
completion); a missing completion raises. -/
def run_inference (query model_name : String)
    (chat : String → String → String → Option String)
    (matched_chunks : List MatchedChunk) : Except String String :=
  match chat model_name systemPromptText
      (userPromptText query (run_inference_context matched_chunks)) with
  | none => Except.error "No completion from the API"
  | some answer => Except.ok answer

/-- The process environment as read by `read_env_variables` (src/ask.py
lines 37-55): the three required credentials and the optional base URL. -/
structure EnvVars : Type where
  search_api_key : Option String
  search_project_key : Option String
  llm_api_key : Option String
  llm_base_url : Option String
deriving DecidableEq

/-- The configuration held on `self` after a successful
`read_env_variables`. -/
structure AskConfig : Type where
  search_api_key : String
  search_project_id : String
  llm_api_key : String
  llm_base_url : String
deriving DecidableEq

/-- The accumulated `err_msg` of `read_env_variables`: one line per missing
required variable, in source order. -/
def missing_env_msg (env : EnvVars) : String :=
  (match env.search_api_key with
   | none => "SEARCH_API_KEY env variable not set.\n"
   | some _ => "") ++
  (match env.search_project_key with
   | none => "SEARCH_PROJECT_KEY env variable not set.\n"
   | some _ => "") ++
  (match env.llm_api_key with
   | none => "LLM_API_KEY env variable not set.\n"
   | some _ => "")

/-- `read_env_variables` (src/ask.py lines 37-55): raises
`Exception(f"\n{err_msg}\n")` when any required variable is missing
(`err_msg` is empty exactly when all three are present), else stores the
credentials, defaulting the base URL. -/
def read_env_variables (env : EnvVars) : Except String AskConfig :=
  match env.search_api_key, env.search_project_key, env.llm_api_key with
  | some sk, some pk, some lk =>
      Except.ok ⟨sk, pk, lk, env.llm_base_url.getD "https://api.openai.com/v1"⟩
  | _, _, _ => Except.error ("\n" ++ missing_env_msg env ++ "\n")

/-- The command-line options of `search_extract_summarize` (src/ask.py lines
209-241): exactly query, date-restrict, target-site, model-name and
log-level — there is no fragment size or overlap option. -/
structure CliArgs : Type where
  query : String
  date_restrict : Option Int
  target_site : Option String
  model_name : String
  log_level : String
deriving DecidableEq

/-- The observable artifacts of one pipeline run: the scraped mapping, the
chunking mapping (both logged), the retrieval results and answer, and the
printed reference lines. -/
structure PipelineOutput : Type where
  scraped : List (String × List Char)
  chunked : List (String × List (List Char))
  results : List MatchedChunk
  answer : String
  references : List String
deriving DecidableEq

/-- `search_extract_summarize` (src/ask.py lines 242-279).  The external
collaborators are passed as functions: `web` is `search_web` (query,
date_restrict, target_site ↦ links, or an exception), `fetch` the per-URL
request+parse, `vsearch` the vector DB's `search` applied to the saved
entries with `top_n = 10`, `chat` the chat-model call.  `Ask.__init__` runs
`read_env_variables` first, so a configuration error precedes every
stage; the chunking stage always receives size 1000 and overlap 100
(src/ask.py line 259). -/
def search_extract_summarize (env : EnvVars) (args : CliArgs)
    (web : String → Option Int → Option String → Except String (List String))
    (fetch : String → FetchResult)
    (vsearch : List SavedEntry → String → Nat → List MatchedChunk)
    (chat : String → String → String → Option String) :
    Except String PipelineOutput :=
  match read_env_variables env with
  | Except.error e => Except.error e
  | Except.ok _cfg =>
    match web args.query args.date_restrict args.target_site with
    | Except.error e => Except.error e
    | Except.ok links =>
      let scrape_results := scrape_urls fetch links
      match chunk_results scrape_results 1000 100 with
      | Except.error e => Except.error e
      | Except.ok chunking_results =>
        let results := vsearch (save_to_db chunking_results) args.query 10
        match run_inference args.query args.model_name chat results with
        | Except.error e => Except.error e
        | Except.ok answer =>
          Except.ok ⟨scrape_results, chunking_results, results, answer,
                     reference_lines results⟩

/-- A concrete successful run's output, for evaluating the pipeline. -/
def out_demo : PipelineOutput :=
  ⟨[("u1", "hello world".data)], [("u1", ["hello world".data])],
   [⟨"hello", "u1"⟩], "ans", ["[1] u1"]⟩

/-! ### Helper lemmas on `pythonRange` and chunking -/

theorem pythonRange_length (stop step : Nat) :
    (pythonRange stop step).length = (stop + step - 1) / step := by
  simp [pythonRange]

theorem lt_pythonRange_length {stop step : Nat} (hstep : 0 < step) (k : Nat) :
    k < (pythonRange stop step).length ↔ k * step < stop := by
  rw [pythonRange_length]
  constructor
  · intro h
    have h1 : k + 1 ≤ (stop + step - 1) / step := h
    have h2 : (k + 1) * step ≤ stop + step - 1 :=
      (Nat.le_div_iff_mul_le hstep).1 h1
    have h3 : (k + 1) * step = k * step + step := by ring
    omega
  · intro h
    have h2 : (k + 1) * step ≤ stop + step - 1 := by
      have h3 : (k + 1) * step = k * step + step := by ring
      omega
    exact (Nat.le_div_iff_mul_le hstep).2 h2

theorem pythonRange_getElem {stop step : Nat} (k : Nat)
    (h : k < (pythonRange stop step).length) :
    (pythonRange stop step)[k] = k * step := by
  simp [pythonRange]

theorem mem_pythonRange {stop step : Nat} (hstep : 0 < step) (pos : Nat) :
    pos ∈ pythonRange stop step ↔ ∃ k, pos = k * step ∧ k * step < stop := by
  constructor
  · intro h
    rcases List.mem_map.1 h with ⟨k, hk, hpos⟩
    rcases List.mem_range.1 hk with hklt
    refine ⟨k, hpos.symm, ?_⟩
    have := (lt_pythonRange_length hstep k).1 (by simpa [pythonRange_length] using hklt)
    exact this
  · rintro ⟨k, rfl, hlt⟩
    apply List.mem_map.2
    refine ⟨k, ?_, rfl⟩
    apply List.mem_range.2
    have := (lt_pythonRange_length hstep k).2 hlt
    simpa [pythonRange_length] using this

/-- With a positive stride `chunk_text` succeeds and returns `chunk_list`. -/
theorem chunk_text_pos {text : List Char} {size overlap : Int}
    (h : overlap < size) :
    chunk_text text size overlap = Except.ok (chunk_list text size overlap) := by
  unfold chunk_text chunk_list
  have h1 : ¬ (size - overlap = 0) := by omega
  have h2 : ¬ (size - overlap < 0) := by omega
  simp [h1, h2]

theorem chunk_list_length (text : List Char) (size overlap : Int) :
    (chunk_list text size overlap).length =
      (text.length + (size - overlap).toNat - 1) / (size - overlap).toNat := by
  simp [chunk_list, pythonRange]

/-- With a positive stride `chunk_results` succeeds and is the pointwise
`chunk_list` over the entries. -/
theorem chunk_results_pos (m : List (String × List Char)) {size overlap : Int}
    (h : overlap < size) :
    chunk_results m size overlap =
      Except.ok (m.map (fun p => (p.1, chunk_list p.2 size overlap))) := by
  induction m with
  | nil => rfl
  | cons p rest ih => simp [chunk_results, chunk_text_pos h, ih]

/-! ### C1: stride, coverage, non-emptiness, empty document -/

/-- C1: with `0 ≤ overlap < size`, `chunk_results`' per-document loop
produces fragments at stride `size - overlap` starting at offset 0, one for
every start offset below the text length (so generation continues exactly
until the start offset reaches the length); every character position of the
text lies inside at least one fragment's window; every fragment is
non-empty; and an empty text yields zero fragments. -/
theorem chunk_text_coverage (text : List Char) (size overlap : Int)
    (h0 : 0 ≤ overlap) (h1 : overlap < size) :
    chunk_text text size overlap = Except.ok (chunk_list text size overlap) ∧
    (∀ k : Nat, k < (chunk_list text size overlap).length ↔
        k * (size - overlap).toNat < text.length) ∧
    (∀ (k : Nat) (h : k < (chunk_list text size overlap).length),
        (chunk_list text size overlap)[k] =
          pySlice text (k * (size - overlap).toNat) size.toNat) ∧
    (∀ i : Nat, i < text.length → ∃ k : Nat,
        k < (chunk_list text size overlap).length ∧
        k * (size - overlap).toNat ≤ i ∧
        i < k * (size - overlap).toNat + size.toNat) ∧
    (∀ c ∈ chunk_list text size overlap, c ≠ []) ∧
    (text.length = 0 → chunk_list text size overlap = []) := by
  have hstep : 0 < (size - overlap).toNat := by omega
  have hlenlt : ∀ k : Nat, k < (chunk_list text size overlap).length ↔
      k * (size - overlap).toNat < text.length := by
    intro k
    have h2 : (chunk_list text size overlap).length =
        (pythonRange text.length (size - overlap).toNat).length := by
      simp [chunk_list]
    rw [h2]
    exact lt_pythonRange_length hstep k
  refine ⟨chunk_text_pos h1, hlenlt, ?_, ?_, ?_, ?_⟩
  · intro k h
    have h2 : k < (pythonRange text.length (size - overlap).toNat).length := by
      simpa [chunk_list] using h
    simp only [chunk_list, List.getElem_map]
    rw [pythonRange_getElem k h2]
  · intro i hi
    refine ⟨i / (size - overlap).toNat, ?_, ?_, ?_⟩
    · exact (hlenlt _).2 (lt_of_le_of_lt (Nat.div_mul_le_self i _) hi)
    · exact Nat.div_mul_le_self i _
    · have h2 : i < i / (size - overlap).toNat * (size - overlap).toNat +
          (size - overlap).toNat := Nat.lt_div_mul_add hstep
      have h3 : (size - overlap).toNat ≤ size.toNat := by omega
      omega
  · intro c hc
    rcases List.mem_map.1 hc with ⟨pos, hpos, rfl⟩
    rcases (mem_pythonRange hstep pos).1 hpos with ⟨k, rfl, hlt⟩
    have hsz : 0 < size.toNat := by omega
    have hlen : 0 < (pySlice text (k * (size - overlap).toNat) size.toNat).length := by
      simp only [pySlice, List.length_take, List.length_drop]
      omega
    exact List.length_pos.1 hlen
  · intro hlen
    have h2 : ((size - overlap).toNat - 1) / (size - overlap).toNat = 0 :=
      Nat.div_eq_of_lt (by omega)
    simp [chunk_list, pythonRange, hlen, h2]

/-- Witness for C1 at the concrete input text "ab", size 2, overlap 0. -/
theorem chunk_text_coverage_witness :
    (0 : Int) ≤ 0 ∧ (0 : Int) < 2 ∧
    chunk_text "ab".data 2 0 = Except.ok (chunk_list "ab".data 2 0) :=
  ⟨by decide, by decide, (chunk_text_coverage "ab".data 2 0 (by decide) (by decide)).1⟩

/-! ### C2: the scenario document "ABCDEFGHIJ" -/

/-- C2 counterexample: the document "ABCDEFGHIJ" with size 4, overlap 1 is
fragmented into FOUR pieces — the loop also emits the trailing partial
fragment "J" at start offset 9 (9 < 10), so the result is not the claimed
three-fragment list. -/
theorem chunk_scenario_counterexample :
    chunk_text "ABCDEFGHIJ".data 4 1 =
      Except.ok ["ABCD".data, "DEFG".data, "GHIJ".data, "J".data] ∧
    (["ABCD".data, "DEFG".data, "GHIJ".data, "J".data] : List (List Char)).length ≠ 3 :=
  ⟨by decide, by decide⟩

/-- C2 amended: document "ABCDEFGHIJ" with size 4, overlap 1 yields the four
fragments "ABCD", "DEFG", "GHIJ", "J" at indices 0..3 (a window is generated
at every start offset < L, so a trailing partial fragment "J" appears at
offset 9); for "ABCDEFGHIJK" of length 11 the fourth fragment is "JK" at
index 3. -/
theorem chunk_scenario_amended :
    chunk_text "ABCDEFGHIJ".data 4 1 =
      Except.ok ["ABCD".data, "DEFG".data, "GHIJ".data, "J".data] ∧
    chunk_text "ABCDEFGHIJK".data 4 1 =
      Except.ok ["ABCD".data, "DEFG".data, "GHIJ".data, "JK".data] :=
  ⟨by decide, by decide⟩

/-! ### C3: documents shorter than `size` -/

/-- C3 counterexample: the document "abc" is shorter than size 4, yet with
overlap 3 (valid: 0 ≤ 3 < 4) the loop emits three fragments "abc", "bc",
"c" (start offsets 0, 1, 2 at stride 1), not exactly one. -/
theorem chunk_short_counterexample :
    chunk_text "abc".data 4 3 = Except.ok ["abc".data, "bc".data, "c".data] ∧
    (["abc".data, "bc".data, "c".data] : List (List Char)).length ≠ 1 :=
  ⟨by decide, by decide⟩

/-- C3 amended: a non-empty document whose length is at most the stride
`size - overlap` (in particular any non-empty document shorter than `size`
when `overlap = 0`) yields exactly one fragment, equal to the whole text. -/
theorem chunk_short_single (text : List Char) (size overlap : Int)
    (h0 : 0 ≤ overlap) (h1 : overlap < size)
    (hpos : 0 < text.length) (hle : (text.length : Int) ≤ size - overlap) :
    chunk_text text size overlap = Except.ok [text] := by
  rw [chunk_text_pos h1]
  have hstep : 0 < (size - overlap).toNat := by omega
  have hLstep : text.length ≤ (size - overlap).toNat := by omega
  have hcount : (text.length + (size - overlap).toNat - 1) / (size - overlap).toNat = 1 := by
    apply Nat.div_eq_of_lt_le <;> omega
  have htake : text.take size.toNat = text :=
    List.take_of_length_le (by omega)
  have hr1 : List.range 1 = [0] := rfl
  simp [chunk_list, pythonRange, hcount, pySlice, htake, hr1]

/-- Witness for C3's amended theorem at text "ab", size 4, overlap 1. -/
theorem chunk_short_single_witness :
    (0 : Int) ≤ 1 ∧ (1 : Int) < 4 ∧ 0 < "ab".data.length ∧
    (("ab".data.length : Int) ≤ 4 - 1) ∧
    chunk_text "ab".data 4 1 = Except.ok ["ab".data] :=
  ⟨by decide, by decide, by decide, by decide,
    chunk_short_single "ab".data 4 1 (by decide) (by decide) (by decide) (by decide)⟩

/-! ### C4: invalid fragmentation parameters -/

/-- C4 counterexample: no configuration error is reported for invalid
fragmentation parameters.  With size 2, overlap 3 (violating
`overlap < size`) the run does not fail fast: the document "ab" is processed
and silently mapped to an empty fragment list, with no error at all; and
with size 2 = overlap 2 on an empty document set no error is raised either,
showing no up-front parameter validation exists. -/
theorem chunk_validation_counterexample :
    chunk_results [("u", "ab".data)] 2 3 = Except.ok [("u", [])] ∧
    chunk_results [] 2 2 = Except.ok [] :=
  ⟨by decide, rfl⟩

/-- C4 amended: `chunk_results` performs no parameter validation.  With
`overlap > size` every document silently yields an empty fragment list and
no error is reported; with `overlap = size` a `ValueError` is raised only
while processing a document (per-document, not before work starts), so an
empty document set raises nothing.  (The CLI coordinator always calls
`chunk_results` with the fixed valid constants size 1000, overlap 100, so
invalid parameters never arise in an actual run.) -/
theorem chunk_invalid_params (m : List (String × List Char)) (size overlap : Int) :
    (size < overlap →
      chunk_results m size overlap =
        Except.ok (m.map (fun p => (p.1, ([] : List (List Char)))))) ∧
    (size = overlap → m ≠ [] →
      ∃ e, chunk_results m size overlap = Except.error e) := by
  constructor
  · intro h
    induction m with
    | nil => rfl
    | cons p rest ih =>
      have hc : chunk_text p.2 size overlap = Except.ok [] := by
        unfold chunk_text
        have h1 : ¬ (size - overlap = 0) := by omega
        have h2 : size - overlap < 0 := by omega
        simp [h1, h2]
      simp [chunk_results, hc, ih]
  · intro h hne
    cases m with
    | nil => exact absurd rfl hne
    | cons p rest =>
      refine ⟨"ValueError: range() arg 3 must not be zero", ?_⟩
      have hc : chunk_text p.2 size overlap =
          Except.error "ValueError: range() arg 3 must not be zero" := by
        unfold chunk_text
        simp [h]
      simp [chunk_results, hc]

/-- Witness for C4's amended theorem at a one-document input with size 2 and
overlaps 3 and 2. -/
theorem chunk_invalid_params_witness :
    ((2 : Int) < 3 ∧
      chunk_results [("u", "ab".data)] 2 3 =
        Except.ok ([("u", "ab".data)].map
          (fun p => (p.1, ([] : List (List Char)))))) ∧
    ((2 : Int) = 2 ∧ ([("u", "ab".data)] : List (String × List Char)) ≠ [] ∧
      ∃ e, chunk_results [("u", "ab".data)] 2 2 = Except.error e) :=
  ⟨⟨by decide, (chunk_invalid_params [("u", "ab".data)] 2 3).1 (by decide)⟩,
   ⟨rfl, by decide, (chunk_invalid_params [("u", "ab".data)] 2 2).2 rfl (by decide)⟩⟩

/-! ### C9: `chunk_results` preserves keys and is per-key functional -/

/-- C9: for every input mapping and any parameters with a positive stride
(`overlap < size`; the pipeline's fixed 1000/100 qualifies), `chunk_results`
maps each entry to its key paired with `chunk_list` of that entry's text —
so the output has exactly the input's keys in the same order, and the
fragment list of a key is a function of that key's text alone (two inputs
agreeing on one source's text get identical fragment lists for it). -/
theorem chunk_results_functional (m : List (String × List Char))
    (size overlap : Int) (h : overlap < size) :
    chunk_results m size overlap =
      Except.ok (m.map (fun p => (p.1, chunk_list p.2 size overlap))) ∧
    (m.map (fun p => (p.1, chunk_list p.2 size overlap))).map Prod.fst =
      m.map Prod.fst := by
  refine ⟨chunk_results_pos m h, ?_⟩
  simp [List.map_map]

/-- Witness for C9 at a two-entry mapping, size 2, overlap 0. -/
theorem chunk_results_functional_witness :
    (0 : Int) < 2 ∧
    (chunk_results [("u", "ab".data), ("v", "cd".data)] 2 0 =
        Except.ok ([("u", "ab".data), ("v", "cd".data)].map
          (fun p => (p.1, chunk_list p.2 2 0))) ∧
      ([("u", "ab".data), ("v", "cd".data)].map
          (fun p => (p.1, chunk_list p.2 2 0))).map Prod.fst =
        [("u", "ab".data), ("v", "cd".data)].map Prod.fst) :=
  ⟨by decide,
    chunk_results_functional [("u", "ab".data), ("v", "cd".data)] 2 0 (by decide)⟩

/-! ### C6: failures while scraping one URL are skipped -/

/-- Membership in `dictInsert` comes from the inserted key or from the
original dict. -/
theorem mem_dictInsert {d : List (String × List Char)} {k : String}
    {v : List Char} {k' : String} {v' : List Char}
    (h : (k', v') ∈ dictInsert d k v) :
    k' = k ∨ (k', v') ∈ d := by
  unfold dictInsert at h
  by_cases hany : d.any (fun p => p.1 == k)
  · rw [if_pos hany] at h
    rcases List.mem_map.1 h with ⟨p, hp, heq⟩
    by_cases hpk : p.1 = k
    · rw [if_pos hpk] at heq
      exact Or.inl (by cases heq; rfl)
    · rw [if_neg hpk] at heq
      exact Or.inr (heq ▸ hp)
  · rw [if_neg hany] at h
    rcases List.mem_append.1 h with hmem | hmem
    · exact Or.inr hmem
    · exact Or.inl (by cases List.mem_singleton.1 hmem; rfl)

/-- Every key in the dict built by the scrape loop was either already
present or had its URL fetched successfully with a body. -/
theorem mem_scrape_foldl {fetch : String → FetchResult} {urls : List String}
    {acc : List (String × List Char)} {k : String} {v : List Char}
    (h : (k, v) ∈ urls.foldl (scrape_step fetch) acc) :
    (∃ v', (k, v') ∈ acc) ∨ ∃ t, fetch k = FetchResult.body t := by
  induction urls generalizing acc with
  | nil => exact Or.inl ⟨v, h⟩
  | cons u rest ih =>
    rcases ih h with ⟨v', hv'⟩ | ht
    · unfold scrape_step at hv'
      cases hfu : fetch u with
      | exc => rw [hfu] at hv'; exact Or.inl ⟨v', hv'⟩
      | noBody => rw [hfu] at hv'; exact Or.inl ⟨v', hv'⟩
      | body t =>
        rw [hfu] at hv'
        rcases mem_dictInsert hv' with hk | hmem
        · exact Or.inr ⟨t, by rw [hk]; exact hfu⟩
        · exact Or.inl ⟨v', hmem⟩
    · exact Or.inr ht

/-- C6: a URL whose request/parse raises, or whose page has no body, is
skipped: the scrape result is the same as if the URL were not in the list
(processing continues with the remaining URLs), and that URL is absent from
the returned mapping. -/
theorem scrape_skips_failures (fetch : String → FetchResult)
    (pre post : List String) (u : String)
    (h : fetch u = FetchResult.exc ∨ fetch u = FetchResult.noBody) :
    scrape_urls fetch (pre ++ u :: post) = scrape_urls fetch (pre ++ post) ∧
    ∀ v : List Char, (u, v) ∉ scrape_urls fetch (pre ++ u :: post) := by
  have hstep : ∀ acc, scrape_step fetch acc u = acc := by
    intro acc
    unfold scrape_step
    rcases h with h | h <;> rw [h]
  constructor
  · unfold scrape_urls
    rw [List.foldl_append, List.foldl_append, List.foldl_cons, hstep]
  · intro v hv
    unfold scrape_urls at hv
    rcases mem_scrape_foldl hv with ⟨v', hv'⟩ | ⟨t, ht⟩
    · exact absurd hv' (List.not_mem_nil _)
    · rcases h with h | h <;> rw [h] at ht <;> exact FetchResult.noConfusion ht

/-- Witness for C6: the middle URL "bad" of three raises; the other two are
scraped. -/
theorem scrape_skips_failures_witness :
    (fetch_demo "bad" = FetchResult.exc ∨ fetch_demo "bad" = FetchResult.noBody) ∧
    (scrape_urls fetch_demo (["a"] ++ "bad" :: ["b"]) =
        scrape_urls fetch_demo (["a"] ++ ["b"]) ∧
      ∀ v : List Char, ("bad", v) ∉ scrape_urls fetch_demo (["a"] ++ "bad" :: ["b"])) :=
  ⟨Or.inl (by decide),
    scrape_skips_failures fetch_demo ["a"] ["b"] "bad" (Or.inl (by decide))⟩

/-! ### C7: missing credentials abort before any stage -/

set_option maxRecDepth 4000 in
/-- C7: if any required credential is missing from the environment, `Ask`
construction (`read_env_variables`) raises a fatal error whose message names
every missing variable, and the whole pipeline run returns exactly that
configuration error for every choice of stage collaborators — no search,
scraping, chunking, indexing or inference behaviour can influence the
outcome, so the failure precedes every stage. -/
theorem missing_env_fails_fast (env : EnvVars)
    (h : env.search_api_key = none ∨ env.search_project_key = none ∨
      env.llm_api_key = none) :
    ∃ msg, read_env_variables env = Except.error msg ∧
      (env.search_api_key = none → "SEARCH_API_KEY".data <:+: msg.data) ∧
      (env.search_project_key = none → "SEARCH_PROJECT_KEY".data <:+: msg.data) ∧
      (env.llm_api_key = none → "LLM_API_KEY".data <:+: msg.data) ∧
      ∀ (args : CliArgs)
        (web : String → Option Int → Option String → Except String (List String))
        (fetch : String → FetchResult)
        (vsearch : List SavedEntry → String → Nat → List MatchedChunk)
        (chat : String → String → String → Option String),
        search_extract_summarize env args web fetch vsearch chat =
          Except.error msg := by
  obtain ⟨sk, pk, lk, bu⟩ := env
  cases sk <;> cases pk <;> cases lk <;>
    first
      | (rcases h with h | h | h <;> exact Option.noConfusion h)
      | (refine ⟨_, rfl, ?_, ?_, ?_, fun args web fetch vsearch chat => rfl⟩ <;>
          (intro hx; first
            | exact Option.noConfusion hx
            | (simp only [missing_env_msg]; decide)))

/-- Witness for C7 at an environment missing SEARCH_API_KEY and
LLM_API_KEY. -/
theorem missing_env_fails_fast_witness :
    ((⟨none, some "p", none, none⟩ : EnvVars).search_api_key = none ∨
      (⟨none, some "p", none, none⟩ : EnvVars).search_project_key = none ∨
      (⟨none, some "p", none, none⟩ : EnvVars).llm_api_key = none) ∧
    ∃ msg, read_env_variables ⟨none, some "p", none, none⟩ = Except.error msg ∧
      ((⟨none, some "p", none, none⟩ : EnvVars).search_api_key = none →
        "SEARCH_API_KEY".data <:+: msg.data) ∧
      ((⟨none, some "p", none, none⟩ : EnvVars).search_project_key = none →
        "SEARCH_PROJECT_KEY".data <:+: msg.data) ∧
      ((⟨none, some "p", none, none⟩ : EnvVars).llm_api_key = none →
        "LLM_API_KEY".data <:+: msg.data) ∧
      ∀ (args : CliArgs)
        (web : String → Option Int → Option String → Except String (List String))
        (fetch : String → FetchResult)
        (vsearch : List SavedEntry → String → Nat → List MatchedChunk)
        (chat : String → String → String → Option String),
        search_extract_summarize ⟨none, some "p", none, none⟩ args web fetch
            vsearch chat = Except.error msg :=
  ⟨Or.inl rfl, missing_env_fails_fast ⟨none, some "p", none, none⟩ (Or.inl rfl)⟩

/-! ### C8: 1-based citation numbering in context and references -/

/-- Folding string concatenation from `s` appends the join of the pieces. -/
theorem foldl_append_str (l : List String) (s : String) :
    l.foldl (fun r x => r ++ x) s = s ++ String.join l := by
  induction l generalizing s with
  | nil => rw [List.foldl_nil]; exact (String.append_empty s).symm
  | cons a rest ih =>
    rw [List.foldl_cons, ih]
    have hj : String.join (a :: rest) = a ++ String.join rest := by
      show rest.foldl (fun r x => r ++ x) ("" ++ a) = a ++ String.join rest
      rw [ih, String.empty_append]
    rw [hj, String.append_assoc]

/-- The context accumulation loop of `run_inference` joins one line per
enumerated chunk. -/
theorem foldl_ctx (l : List (Nat × MatchedChunk)) (s : String) :
    l.foldl (fun ctx p => ctx ++ "[" ++ toString (p.1 + 1) ++ "] " ++
        p.2.chunk ++ "\n") s =
      s ++ String.join (l.map (fun p => "[" ++ toString (p.1 + 1) ++ "] " ++
        p.2.chunk ++ "\n")) := by
  induction l generalizing s with
  | nil => rw [List.foldl_nil, List.map_nil]; exact (String.append_empty s).symm
  | cons a rest ih =>
    rw [List.foldl_cons, List.map_cons, ih]
    have hj : String.join (("[" ++ toString (a.1 + 1) ++ "] " ++ a.2.chunk ++ "\n")
          :: rest.map (fun p => "[" ++ toString (p.1 + 1) ++ "] " ++ p.2.chunk ++ "\n")) =
        ("[" ++ toString (a.1 + 1) ++ "] " ++ a.2.chunk ++ "\n") ++
          String.join (rest.map (fun p => "[" ++ toString (p.1 + 1) ++ "] " ++
            p.2.chunk ++ "\n")) := by
      show (rest.map _).foldl (fun r x => r ++ x) ("" ++ _) = _
      rw [foldl_append_str, String.empty_append]
    rw [hj]
    simp [String.append_assoc]

/-- The enumerated context lines coincide with the spec's
`context_lines`. -/
theorem enum_map_context (results : List MatchedChunk) :
    results.enum.map (fun p => "[" ++ toString (p.1 + 1) ++ "] " ++
        p.2.chunk ++ "\n") = context_lines results := by
  unfold context_lines
  apply List.ext_getElem
  · simp [List.enum_length]
  · intro i h1 h2
    have hi : i < results.length := by simpa using h2
    rw [List.getElem_map, List.getElem_map, List.getElem_range,
        List.getElem_enum _ _ (by simpa [List.enum_length] using hi)]
    have hgetD : results.getD i ⟨"", ""⟩ = results[i] := by
      rw [List.getD_eq_getElem?_getD, List.getElem?_eq_getElem hi]
      rfl
    rw [hgetD]

/-- C8: for every retrieval result sequence, the context handed to the chat
call is exactly the 1-based numbered lines "[i+1] chunk_i" in result order,
and the printed reference list numbers entry i as "[i+1] url_i", in the same
order as the results. -/
theorem citation_numbering (results : List MatchedChunk) :
    run_inference_context results = String.join (context_lines results) ∧
    (reference_lines results).length = results.length ∧
    (∀ i : Nat, i < results.length →
      (reference_lines results).getD i "" =
        "[" ++ toString (i + 1) ++ "] " ++ (results.getD i ⟨"", ""⟩).url) := by
  refine ⟨?_, ?_, ?_⟩
  · unfold run_inference_context
    rw [foldl_ctx, String.empty_append, enum_map_context]
  · simp [reference_lines, List.enum_length]
  · intro i hi
    unfold reference_lines
    have hlen : i < (results.enum.map (fun p => "[" ++ toString (p.1 + 1) ++
        "] " ++ p.2.url)).length := by
      simpa [List.enum_length] using hi
    rw [List.getD_eq_getElem?_getD, List.getElem?_eq_getElem hlen]
    rw [Option.getD_some, List.getElem_map,
        List.getElem_enum _ _ (by simpa [List.enum_length] using hi)]
    have hgetD : results.getD i ⟨"", ""⟩ = results[i] := by
      rw [List.getD_eq_getElem?_getD, List.getElem?_eq_getElem hi]
      rfl
    rw [hgetD]

/-- Witness for C8 at a two-result sequence, evaluated at position 0. -/
theorem citation_numbering_witness :
    run_inference_context [⟨"c1", "u1"⟩, ⟨"c2", "u2"⟩] =
      String.join (context_lines [⟨"c1", "u1"⟩, ⟨"c2", "u2"⟩]) ∧
    (0 : Nat) < ([⟨"c1", "u1"⟩, ⟨"c2", "u2"⟩] : List MatchedChunk).length ∧
    (reference_lines [⟨"c1", "u1"⟩, ⟨"c2", "u2"⟩]).getD 0 "" =
      "[" ++ toString (0 + 1) ++ "] " ++
        (([⟨"c1", "u1"⟩, ⟨"c2", "u2"⟩] : List MatchedChunk).getD 0 ⟨"", ""⟩).url :=
  ⟨(citation_numbering [⟨"c1", "u1"⟩, ⟨"c2", "u2"⟩]).1, by decide,
    (citation_numbering [⟨"c1", "u1"⟩, ⟨"c2", "u2"⟩]).2.2 0 (by decide)⟩

/-! ### C10: the pipeline always chunks with size 1000, overlap 100 -/

/-- C10: every successful pipeline run — for any CLI arguments (whose record
mirrors the five CLI options; there is no size or overlap option) and any
collaborators — records as its chunking exactly `chunk_results` of the
scraped mapping at the fixed constants size 1000, overlap 100, i.e. the
stride-900 `chunk_list` of each document. -/
theorem pipeline_fixed_chunk_params (env : EnvVars) (args : CliArgs)
    (web : String → Option Int → Option String → Except String (List String))
    (fetch : String → FetchResult)
    (vsearch : List SavedEntry → String → Nat → List MatchedChunk)
    (chat : String → String → String → Option String)
    (out : PipelineOutput)
    (h : search_extract_summarize env args web fetch vsearch chat = Except.ok out) :
    chunk_results out.scraped 1000 100 = Except.ok out.chunked ∧
    out.chunked = out.scraped.map (fun p => (p.1, chunk_list p.2 1000 100)) := by
  unfold search_extract_summarize at h
  cases hre : read_env_variables env with
  | error e => simp only [hre] at h; exact Except.noConfusion h
  | ok cfg =>
    simp only [hre] at h
    cases hweb : web args.query args.date_restrict args.target_site with
    | error e => simp only [hweb] at h; exact Except.noConfusion h
    | ok links =>
      simp only [hweb] at h
      simp only [chunk_results_pos (scrape_urls fetch links)
        (show (100 : Int) < 1000 by norm_num)] at h
      cases hri : run_inference args.query args.model_name chat
          (vsearch (save_to_db ((scrape_urls fetch links).map
            (fun p => (p.1, chunk_list p.2 1000 100)))) args.query 10) with
      | error e => simp only [hri] at h; exact Except.noConfusion h
      | ok answer =>
        simp only [hri] at h
        cases h
        exact ⟨chunk_results_pos _ (by norm_num), rfl⟩

/-- Witness for C10: a concrete one-link, one-document successful run. -/
theorem pipeline_fixed_chunk_params_witness :
    search_extract_summarize ⟨some "k", some "p", some "l", none⟩
        ⟨"q", none, none, "m", "INFO"⟩
        (fun _ _ _ => Except.ok ["u1"])
        (fun _ => FetchResult.body "hello world".data)
        (fun _ _ _ => [⟨"hello", "u1"⟩])
        (fun _ _ _ => some "ans") = Except.ok out_demo ∧
    (chunk_results out_demo.scraped 1000 100 = Except.ok out_demo.chunked ∧
      out_demo.chunked = out_demo.scraped.map
        (fun p => (p.1, chunk_list p.2 1000 100))) :=
  ⟨by decide,
    pipeline_fixed_chunk_params ⟨some "k", some "p", some "l", none⟩
      ⟨"q", none, none, "m", "INFO"⟩
      (fun _ _ _ => Except.ok ["u1"])
      (fun _ => FetchResult.body "hello world".data)
      (fun _ _ _ => [⟨"hello", "u1"⟩])
      (fun _ _ _ => some "ans") out_demo (by decide)⟩

end AskPy
